import Mathlib

/-!
Shallow embedding of the Blackboard OAuth credential broker
(`src/server.py`, `src/blackboard_mcp.py`, `src/auth.py`).

Python dicts are modelled as association lists over `String` keys;
`datetime.utcnow()` is passed explicitly as a `Nat` number of seconds;
the outbound HTTP exchanges are modelled by passing the upstream
response as an explicit argument.  Python string truthiness (empty
string is falsy) is modelled by `pyStr`.
-/

namespace BlackboardAuth

/-- Association-list lookup, modelling Python `dict.get(k)` / `k in d`. -/
def alookup {α : Type} (l : List (String × α)) (k : String) : Option α :=
  match l with
  | [] => none
  | (k₂, v) :: t => if k₂ = k then some v else alookup t k

/-- Deletion, modelling Python `del d[k]` / `d.pop(k, None)`. -/
def aerase {α : Type} (l : List (String × α)) (k : String) : List (String × α) :=
  match l with
  | [] => []
  | p :: t => if p.1 = k then aerase t k else p :: aerase t k

/-- Overwriting insertion, modelling Python `d[k] = v`. -/
def ainsert {α : Type} (l : List (String × α)) (k : String) (v : α) : List (String × α) :=
  (k, v) :: aerase l k

/-- Python string truthiness on an optional string: `None` and the empty
string are falsy, anything else is kept. -/
def pyStr (o : Option String) : Option String :=
  match o with
  | some s => if s = "" then none else some s
  | none => none

/-- A parsed Blackboard token record, as stored in `_blackboard_tokens`
(`src/server.py` lines 180-186).  Timestamps are seconds. -/
structure Credential where
  access_token : String
  expires_at : Nat
  blackboard_user_id : Option String
  refresh_token : Option String
  deriving DecidableEq

/-- An entry of `_pending_auth`: a pending OAuth flow bound to an SSO user
(`src/server.py` lines 120-123). -/
structure PendingAuth where
  sso_user_id : String
  created_at : Nat
  deriving DecidableEq

/-- The JWT claim fields the server consults (`sub`, `user_id`, `uid`, `email`,
`name`); a `none` field is an absent key in the claims dict. -/
structure Claims where
  sub : Option String
  user_id : Option String
  uid : Option String
  email : Option String
  name : Option String
  deriving DecidableEq

/-- An entry of `_sso_identities` (`src/server.py` lines 241-249). -/
structure SsoIdentity where
  sso_user_id : Option String
  sso_email : Option String
  sso_name : Option String
  session_ids : List String
  first_seen : Nat
  last_seen : Nat
  raw_claims : Claims
  deriving DecidableEq

/-- The three module-level mutable maps of `src/server.py` (lines 31-38). -/
structure ServerState where
  blackboard_tokens : List (String × Credential)
  pending_auth : List (String × PendingAuth)
  sso_identities : List (String × SsoIdentity)
  deriving DecidableEq

/-- Environment configuration consumed by `src/server.py` (lines 20-23). -/
structure Config where
  blackboard_url : String
  blackboard_app_key : String
  server_url : String
  deriving DecidableEq

/-- `get_blackboard_token` (`src/server.py` lines 44-55): returns the access
token for an SSO user if present and unexpired; an entry with
`now >= expires_at` is deleted and treated as absent.  Returns the token
(if any) together with the possibly-updated token map. -/
def get_blackboard_token (tokens : List (String × Credential)) (sso_user_id : String)
    (now : Nat) : Option String × List (String × Credential) :=
  match alookup tokens sso_user_id with
  | none => (none, tokens)
  | some data =>
    if data.expires_at ≤ now then (none, aerase tokens sso_user_id)
    else (some data.access_token, tokens)

/-- `is_blackboard_authenticated` (`src/server.py` lines 58-60). -/
def is_blackboard_authenticated (tokens : List (String × Credential))
    (sso_user_id : String) (now : Nat) : Bool × List (String × Credential) :=
  let r := get_blackboard_token tokens sso_user_id now
  (r.1.isSome, r.2)

/-- `get_sso_user_id_from_context` (`src/server.py` lines 63-66):
`claims.get("sub") or claims.get("user_id") or claims.get("uid")`.
Python `or` skips falsy values, so an empty-string claim falls through;
the result is normalised so that a falsy final value becomes `none`,
which matches every use site (all of them test truthiness). -/
def get_sso_user_id (c : Claims) : Option String :=
  match pyStr c.sub with
  | some s => some s
  | none =>
    match pyStr c.user_id with
    | some s => some s
    | none => pyStr c.uid

/-- `create_auth_state` (`src/server.py` lines 117-124).  The fresh random
token produced by `secrets.token_urlsafe(32)` is passed in as `state`. -/
def create_auth_state (pending : List (String × PendingAuth)) (sso_user_id : String)
    (state : String) (now : Nat) : List (String × PendingAuth) :=
  ainsert pending state { sso_user_id := sso_user_id, created_at := now }

/-- `get_auth_url` (`src/server.py` lines 127-139): registers the pending
state and builds the upstream authorization URL embedding it. -/
def get_auth_url (cfg : Config) (pending : List (String × PendingAuth))
    (sso_user_id : String) (state : String) (now : Nat) :
    String × List (String × PendingAuth) :=
  let pending := create_auth_state pending sso_user_id state now
  (cfg.blackboard_url ++ "/learn/api/public/v1/oauth2/authorizationcode"
    ++ "?redirect_uri=" ++ cfg.server_url ++ "/oauth/callback"
    ++ "&response_type=code"
    ++ "&client_id=" ++ cfg.blackboard_app_key
    ++ "&scope=read"
    ++ "&state=" ++ state, pending)

/-- The parsed JSON body of a 200 response from the upstream token endpoint;
`access_token` is required (the source indexes it directly), the other
fields are read with `dict.get`. -/
structure TokenData where
  access_token : String
  expires_in : Option Nat
  user_id : Option String
  refresh_token : Option String
  deriving DecidableEq

/-- The upstream token-endpoint HTTP response: status code, raw body text,
and the parsed JSON body (consulted only on status 200). -/
structure UpstreamResponse where
  status_code : Nat
  text : String
  token_data : TokenData
  deriving DecidableEq

/-- The three `ValueError` failures raised by `exchange_code`
(`src/server.py` lines 151, 155, 174). -/
inductive ExchangeError where
  | invalidState
  | authSessionExpired
  | tokenExchangeFailed (body : String)
  deriving DecidableEq

/-- The success value of `exchange_code` (`src/server.py` lines 189-192):
the SSO user and the upstream user id, never the access token. -/
structure ExchangeResult where
  sso_user_id : String
  blackboard_user_id : Option String
  deriving DecidableEq

/-- `exchange_code` (`src/server.py` lines 142-192).  Pops the pending state
first (so the state is consumed whether the call succeeds or fails), checks
the 5-minute age bound, checks the upstream status, and on success stores
the credential keyed by the bound SSO user, overwriting any prior entry.
Returns the result or error together with the updated server state.
`now - created_at` uses truncated `Nat` subtraction; a clock that reads
earlier than `created_at` yields 0, matching a negative Python timedelta
(both compare as not exceeding the TTL). -/
def exchange_code (st : ServerState) (code : String) (state : String)
    (resp : UpstreamResponse) (now : Nat) :
    Except ExchangeError ExchangeResult × ServerState :=
  match alookup st.pending_auth state with
  | none => (Except.error ExchangeError.invalidState, st)
  | some pending =>
    let st := { st with pending_auth := aerase st.pending_auth state }
    if 300 < now - pending.created_at then
      (Except.error ExchangeError.authSessionExpired, st)
    else if resp.status_code ≠ 200 then
      (Except.error (ExchangeError.tokenExchangeFailed resp.text), st)
    else
      let td := resp.token_data
      let expires_in := td.expires_in.getD 3600
      let cred : Credential :=
        { access_token := td.access_token
          expires_at := now + expires_in
          blackboard_user_id := td.user_id
          refresh_token := td.refresh_token }
      let _ := code
      (Except.ok { sso_user_id := pending.sso_user_id, blackboard_user_id := td.user_id },
        { st with blackboard_tokens := ainsert st.blackboard_tokens pending.sso_user_id cred })

/-- The `_sso_identities` update performed by `track_sso_identity`
(`src/server.py` lines 221-256): keyed by the SSO user id when truthy,
else by the transient session id; creates the bookkeeping entry or
refreshes `last_seen` and the known-session list. -/
def track_entry (ids : List (String × SsoIdentity)) (c : Claims) (session_id : String)
    (now : Nat) : List (String × SsoIdentity) :=
  let sso_user_id := get_sso_user_id c
  let storage_key := sso_user_id.getD session_id
  match alookup ids storage_key with
  | none =>
    ainsert ids storage_key
      { sso_user_id := sso_user_id
        sso_email := c.email
        sso_name := c.name
        session_ids := [session_id]
        first_seen := now
        last_seen := now
        raw_claims := c }
  | some entry =>
    let entry := { entry with last_seen := now }
    let entry :=
      if session_id ∈ entry.session_ids then entry
      else { entry with session_ids := entry.session_ids ++ [session_id] }
    ainsert ids storage_key entry

/-- `track_sso_identity` as a state transformer: it only writes
`_sso_identities`, leaving the token map and the pending registry alone. -/
def track_sso_identity (st : ServerState) (c : Claims) (session_id : String)
    (now : Nat) : ServerState :=
  { st with sso_identities := track_entry st.sso_identities c session_id now }

/-- Rendering of a possibly-`None` Python value inside an f-string
(`f"...{x}..."` prints `None` for `None`). -/
def render_opt_id (o : Option String) : String :=
  match o with
  | some s => s
  | none => "None"

/-- Timestamps are modelled in seconds; `datetime.isoformat()` is modelled
as the (injective) decimal rendering of the timestamp. -/
def iso_format (t : Nat) : String := toString t

/-- The final paragraph of `blackboard_login` on the needs-authorization path
(`src/server.py` lines 351-358). -/
def login_message (auth_url sso_user_id : String) : String :=
  "🔐 **Connect to Blackboard**\n\nClick this link to sign in:\n" ++ auth_url
    ++ "\n\nAfter you authorize access, come back here and you\x27ll be connected!\n\n"
    ++ "Note: Your Blackboard credentials will be securely stored and linked to your SSO identity ("
    ++ sso_user_id ++ ")."

/-- `blackboard_login` (`src/server.py` lines 330-358).  `newState` is the
fresh random state token that `secrets.token_urlsafe` would produce if the
needs-authorization path is reached. -/
def blackboard_login (cfg : Config) (st : ServerState) (c : Claims) (session_id : String)
    (newState : String) (now : Nat) : String × ServerState :=
  let st := track_sso_identity st c session_id now
  match get_sso_user_id c with
  | none => ("❌ Unable to identify SSO user. Please try again.", st)
  | some sso_user_id =>
    let auth := is_blackboard_authenticated st.blackboard_tokens sso_user_id now
    let st := { st with blackboard_tokens := auth.2 }
    if auth.1 then
      ("✅ You\x27re already connected to Blackboard!", st)
    else
      let r := get_auth_url cfg st.pending_auth sso_user_id newState now
      (login_message r.1 sso_user_id, { st with pending_auth := r.2 })

/-- `blackboard_status` (`src/server.py` lines 361-374). -/
def blackboard_status (st : ServerState) (c : Claims) (session_id : String)
    (now : Nat) : String × ServerState :=
  let st := track_sso_identity st c session_id now
  match get_sso_user_id c with
  | none => ("❌ Unable to identify SSO user.", st)
  | some sso_user_id =>
    let auth := is_blackboard_authenticated st.blackboard_tokens sso_user_id now
    let st := { st with blackboard_tokens := auth.2 }
    if auth.1 then
      let bb_user_id :=
        match alookup st.blackboard_tokens sso_user_id with
        | some data => render_opt_id data.blackboard_user_id
        | none => "Unknown"
      ("✅ Connected to Blackboard (User ID: " ++ bb_user_id
        ++ ")\n🔒 Access token secured", st)
    else
      ("❌ Not connected. Use `blackboard_login` to connect.", st)

/-- `blackboard_logout` (`src/server.py` lines 377-389). -/
def blackboard_logout (st : ServerState) (c : Claims) (session_id : String)
    (now : Nat) : String × ServerState :=
  let st := track_sso_identity st c session_id now
  match get_sso_user_id c with
  | none => ("❌ Unable to identify SSO user.", st)
  | some sso_user_id =>
    if (alookup st.blackboard_tokens sso_user_id).isSome then
      ("✅ Disconnected from Blackboard. Your access token has been securely removed.",
        { st with blackboard_tokens := aerase st.blackboard_tokens sso_user_id })
    else
      ("ℹ️ You weren\x27t connected to Blackboard.", st)

/-- One entry of the `results` array of the courses endpoint; fields read
with `dict.get` (a JSON `null` value is not distinguished from an absent
key by this model). -/
structure Course where
  id : Option String
  name : Option String
  deriving DecidableEq

/-- The HTTP response of the Blackboard courses API call: status code and
parsed JSON body; `results = none` models a falsy body or a body without a
`results` key. -/
structure ApiResponse where
  status_code : Nat
  results : Option (List Course)
  deriving DecidableEq

/-- The failures of `make_blackboard_api_call` that its callers catch:
the `ValueError` for a missing token (`src/server.py` line 93) and the
`httpx` status error raised by `raise_for_status` (line 113). -/
inductive ApiCallError where
  | notAuthenticated
  | httpError (status : Nat)
  deriving DecidableEq

/-- The auth-relevant behaviour of `make_blackboard_api_call`
(`src/server.py` lines 69-114), specialised to the GET of the courses
endpoint: fails if no valid token is stored, fails on a 4xx/5xx upstream
status, otherwise returns the parsed body.  The token map is returned
because the token lookup may lazily evict an expired entry. -/
def make_blackboard_api_call (tokens : List (String × Credential)) (sso_user_id : String)
    (now : Nat) (resp : ApiResponse) :
    Except ApiCallError (Option (List Course)) × List (String × Credential) :=
  let r := get_blackboard_token tokens sso_user_id now
  match r.1 with
  | none => (Except.error ApiCallError.notAuthenticated, r.2)
  | some _ =>
    if 400 ≤ resp.status_code then
      (Except.error (ApiCallError.httpError resp.status_code), r.2)
    else
      (Except.ok resp.results, r.2)

/-- Modelled rendering of `str(e)` for the `httpx` status-error exception
caught in `get_blackboard_courses`. -/
def http_error_message (status : Nat) : String :=
  "HTTP status error " ++ toString status

/-- One line of the course listing (`src/server.py` line 422). -/
def format_course (course : Course) : String :=
  "  • " ++ course.name.getD ("Unnamed Course")
    ++ " (ID: " ++ course.id.getD ("Unknown") ++ ")"

/-- The course-list formatting of `get_blackboard_courses`
(`src/server.py` lines 418-427). -/
def format_courses (results : List Course) : String :=
  let lines := ["📚 **Your Blackboard Courses**\n"] ++ (results.take 10).map format_course
  let lines :=
    if 10 < results.length then
      lines ++ ["\n... and " ++ toString (results.length - 10) ++ " more courses"]
    else lines
  String.intercalate ("\n") lines

/-- `get_blackboard_courses` (`src/server.py` lines 392-432). -/
def get_blackboard_courses (st : ServerState) (c : Claims) (session_id : String)
    (now : Nat) (resp : ApiResponse) : String × ServerState :=
  let st := track_sso_identity st c session_id now
  match get_sso_user_id c with
  | none => ("❌ Unable to identify SSO user.", st)
  | some sso_user_id =>
    let r := make_blackboard_api_call st.blackboard_tokens sso_user_id now resp
    let st := { st with blackboard_tokens := r.2 }
    match r.1 with
    | Except.error ApiCallError.notAuthenticated =>
      ("❌ Not authenticated to Blackboard. Please use blackboard_login first.", st)
    | Except.error (ApiCallError.httpError s) =>
      ("❌ Error fetching courses: " ++ http_error_message s, st)
    | Except.ok none => ("No courses found.", st)
    | Except.ok (some results) => (format_courses results, st)

/-- `whoami` (`src/server.py` lines 266-327): tracks the identity, then
renders the SSO identity, session bookkeeping, and Blackboard connection
sections.  A present `first_seen`/`expires_at` datetime is always truthy in
Python, so its line is emitted whenever the record exists. -/
def whoami (st : ServerState) (c : Claims) (session_id : String) (now : Nat) :
    String × ServerState :=
  let st := track_sso_identity st c session_id now
  let sso_user_id := get_sso_user_id c
  let storage_key := sso_user_id.getD session_id
  let sso_info := alookup st.sso_identities storage_key
  let info_user := pyStr (sso_info.bind SsoIdentity.sso_user_id)
  let info_email := pyStr (sso_info.bind SsoIdentity.sso_email)
  let info_name := pyStr (sso_info.bind SsoIdentity.sso_name)
  let lines := ["🔍 **Your Identity**\n", "**FastMCP Cloud SSO:**"]
  let lines := lines ++
    (match info_user with
     | some v => ["  • User ID: " ++ v]
     | none => [])
  let lines := lines ++
    (match info_email with
     | some v => ["  • Email: " ++ v]
     | none => [])
  let lines := lines ++
    (match info_name with
     | some v => ["  • Name: " ++ v]
     | none => [])
  let lines := lines ++
    (if info_user.isNone && info_email.isNone then
       ["  • No SSO identity found", "  • (This might mean JWT extraction failed)"]
     else [])
  let lines := lines ++ ["\n**Session:**", "  • Current Session ID: " ++ session_id]
  let sids := (sso_info.map SsoIdentity.session_ids).getD []
  let lines := lines ++
    (if 1 < sids.length then
       ["  • Total sessions: " ++ toString sids.length,
        "  • Note: Session IDs may change between requests"]
     else [])
  let lines := lines ++
    (match sso_info with
     | some info => ["  • First seen: " ++ iso_format info.first_seen]
     | none => [])
  let lines := lines ++ ["\n**Blackboard Connection:**"]
  let auth :=
    match sso_user_id with
    | some u => is_blackboard_authenticated st.blackboard_tokens u now
    | none => (false, st.blackboard_tokens)
  let st := { st with blackboard_tokens := auth.2 }
  let bbLines :=
    match sso_user_id with
    | some u =>
      if auth.1 then
        match alookup st.blackboard_tokens u with
        | some data =>
          ["  • Status: ✅ Connected",
           "  • Blackboard User ID: " ++ render_opt_id data.blackboard_user_id,
           "  • Token expires: " ++ iso_format data.expires_at,
           "  • 🔒 Access token secured (never exposed to user)"]
        | none =>
          ["  • Status: ✅ Connected",
           "  • Blackboard User ID: Unknown",
           "  • 🔒 Access token secured (never exposed to user)"]
      else
        ["  • Status: ❌ Not connected", "  • Use `blackboard_login` to connect"]
    | none =>
      ["  • Status: ❌ Not connected", "  • Use `blackboard_login` to connect"]
  (String.intercalate ("\n") (lines ++ bbLines), st)

/-- The access-token object returned by FastMCP `get_access_token()` as
consumed by `src/blackboard_mcp.py`: the bearer token string (its `token`
attribute) and its claims dict. -/
structure McpAccessToken where
  token : String
  claims : List (String × String)
  deriving DecidableEq

/-- `_get_oauth_access_token_str` (`src/blackboard_mcp.py` lines 83-98):
probes the token object for a non-empty token string; modelled on an
object whose `token` attribute holds the string. -/
def get_oauth_access_token_str (tok : McpAccessToken) : Except String String :=
  if tok.token ≠ "" then Except.ok tok.token
  else Except.error ("Could not extract access token string from get_access_token().")

/-- `get_user_id` (`src/blackboard_mcp.py` lines 101-116): the `sub` claim
when truthy, else the session id when truthy, else `"unknown"`. -/
def get_user_id (tok : McpAccessToken) (session_id : Option String) : String :=
  match pyStr (alookup tok.claims ("sub")) with
  | some u => u
  | none =>
    match pyStr session_id with
    | some s => s
    | none => "unknown"

/-- The claims section of `debug_identity` (`src/blackboard_mcp.py`
line 210): a joined `k: v` listing, or a placeholder when empty. -/
def claims_lines (cs : List (String × String)) : String :=
  match cs with
  | [] => "  (no claims available)"
  | _ => String.intercalate ("\n") (cs.map fun p => "  " ++ p.1 ++ ": " ++ p.2)

/-- `debug_identity` (`src/blackboard_mcp.py` lines 201-236): renders the
user id, the leading characters of the session id, the claims, and a preview consisting of the
first 8 characters of the plaintext access token. -/
def debug_identity (tok : McpAccessToken) (session_id : Option String) : String :=
  let user_id := get_user_id tok session_id
  let cl := claims_lines tok.claims
  let token_result := get_oauth_access_token_str tok
  let token_preview :=
    match token_result with
    | Except.ok t => t.take 8 ++ "..."
    | Except.error e => "None... (" ++ e ++ ")"
  let has_token :=
    match token_result with
    | Except.ok _ => "True"
    | Except.error _ => "False"
  let sid_part :=
    match pyStr session_id with
    | some s => s.take 16
    | none => "None"
  "🔍 **Identity & Authentication Debug**\n\n"
    ++ "MULTI-TENANT USER IDENTIFIER (stable across sessions):\n"
    ++ "  Blackboard User ID: " ++ user_id ++ "\n\n"
    ++ "MCP SESSION (may change between conversations):\n"
    ++ "  Session ID: " ++ sid_part ++ "...\n\n"
    ++ "OAUTH CLAIMS (from token.claims):\n" ++ cl ++ "\n\n"
    ++ "ACCESS TOKEN:\n"
    ++ "  Has Token: " ++ has_token ++ "\n"
    ++ "  Token Preview: " ++ token_preview ++ "\n"

/-- The token preview logged by `BlackboardTokenVerifier.verify_token`
(`src/auth.py` line 60): first 12 and last 4 characters for tokens longer
than 16 characters, else only the length. -/
def verify_token_preview (token : String) : String :=
  if 16 < token.length then token.take 12 ++ "..." ++ token.takeRight 4
  else ("[" ++ toString token.length ++ " chars]")

/-- Replace a stored access token by the empty string, keeping every other
field.  Used to state that the tool surfaces do not depend on the stored
plaintext token. -/
def scrubCred (cr : Credential) : Credential :=
  { cr with access_token := "" }

/-- Scrub every stored access token in a token map. -/
def scrubTokens (l : List (String × Credential)) : List (String × Credential) :=
  l.map fun p => (p.1, scrubCred p.2)

/-- Scrub every stored access token in the server state. -/
def scrubState (st : ServerState) : ServerState :=
  { st with blackboard_tokens := scrubTokens st.blackboard_tokens }

/-- Whether `pat` occurs contiguously inside `l`. -/
def listIsInfixOf (pat l : List Char) : Bool :=
  match l with
  | [] => pat.isEmpty
  | _ :: t => pat.isPrefixOf l || listIsInfixOf pat t

/-- Substring containment on strings, via character lists. -/
def strContains (s pat : String) : Bool :=
  listIsInfixOf pat.data s.data

/-! ## Supporting lemmas -/

theorem alookup_aerase_self {α : Type} (l : List (String × α)) (k : String) :
    alookup (aerase l k) k = none := by
  induction l with
  | nil => rfl
  | cons p t ih =>
    by_cases h : p.1 = k
    · simpa [aerase, h] using ih
    · simpa [aerase, alookup, h] using ih

theorem alookup_aerase_ne {α : Type} (l : List (String × α)) (k k₂ : String)
    (h : k ≠ k₂) : alookup (aerase l k) k₂ = alookup l k₂ := by
  induction l with
  | nil => rfl
  | cons p t ih =>
    by_cases hp : p.1 = k
    · have hp₂ : p.1 ≠ k₂ := by
        intro hc
        exact h (hp ▸ hc ▸ rfl)
      simp [aerase, alookup, hp, hp₂, ih, h]
    · by_cases hp₂ : p.1 = k₂
      · simp [aerase, alookup, hp, hp₂, Ne.symm h]
      · simp [aerase, alookup, hp, hp₂, ih]

theorem alookup_ainsert_self {α : Type} (l : List (String × α)) (k : String) (v : α) :
    alookup (ainsert l k v) k = some v := by
  simp [ainsert, alookup]

theorem alookup_ainsert_ne {α : Type} (l : List (String × α)) (k k₂ : String) (v : α)
    (h : k ≠ k₂) : alookup (ainsert l k v) k₂ = alookup l k₂ := by
  simp [ainsert, alookup, fun hc => h (hc : k = k₂), alookup_aerase_ne l k k₂ h]

theorem track_blackboard_tokens (st : ServerState) (c : Claims) (session_id : String)
    (now : Nat) :
    (track_sso_identity st c session_id now).blackboard_tokens = st.blackboard_tokens := rfl

theorem track_pending_auth (st : ServerState) (c : Claims) (session_id : String)
    (now : Nat) :
    (track_sso_identity st c session_id now).pending_auth = st.pending_auth := rfl

theorem alookup_scrubTokens (l : List (String × Credential)) (k : String) :
    alookup (scrubTokens l) k = (alookup l k).map scrubCred := by
  induction l with
  | nil => rfl
  | cons p t ih =>
    by_cases h : p.1 = k
    · simp [scrubTokens, alookup, h]
    · simpa [scrubTokens, alookup, h] using ih

theorem aerase_scrubTokens (l : List (String × Credential)) (k : String) :
    aerase (scrubTokens l) k = scrubTokens (aerase l k) := by
  induction l with
  | nil => rfl
  | cons p t ih =>
    by_cases h : p.1 = k
    · simpa [scrubTokens, aerase, h] using ih
    · simpa [scrubTokens, aerase, h] using ih

theorem get_blackboard_token_scrub_fst (l : List (String × Credential)) (u : String)
    (now : Nat) :
    (get_blackboard_token (scrubTokens l) u now).1
      = (get_blackboard_token l u now).1.map (fun _ => "") := by
  unfold get_blackboard_token
  rw [alookup_scrubTokens]
  cases alookup l u with
  | none => rfl
  | some d =>
    by_cases h : d.expires_at ≤ now
    · simp [scrubCred, h]
    · simp [scrubCred, h]

theorem get_blackboard_token_scrub_snd (l : List (String × Credential)) (u : String)
    (now : Nat) :
    (get_blackboard_token (scrubTokens l) u now).2
      = scrubTokens (get_blackboard_token l u now).2 := by
  unfold get_blackboard_token
  rw [alookup_scrubTokens]
  cases alookup l u with
  | none => rfl
  | some d =>
    by_cases h : d.expires_at ≤ now
    · simp [scrubCred, h, aerase_scrubTokens]
    · simp [scrubCred, h]

theorem is_auth_scrub_fst (l : List (String × Credential)) (u : String) (now : Nat) :
    (is_blackboard_authenticated (scrubTokens l) u now).1
      = (is_blackboard_authenticated l u now).1 := by
  simp [is_blackboard_authenticated, get_blackboard_token_scrub_fst]

theorem is_auth_scrub_snd (l : List (String × Credential)) (u : String) (now : Nat) :
    (is_blackboard_authenticated (scrubTokens l) u now).2
      = scrubTokens (is_blackboard_authenticated l u now).2 := by
  simp [is_blackboard_authenticated, get_blackboard_token_scrub_snd]

theorem track_scrub (st : ServerState) (c : Claims) (session_id : String) (now : Nat) :
    track_sso_identity (scrubState st) c session_id now
      = scrubState (track_sso_identity st c session_id now) := rfl

theorem scrubState_tokens (st : ServerState) :
    (scrubState st).blackboard_tokens = scrubTokens st.blackboard_tokens := rfl

theorem scrubState_pending (st : ServerState) :
    (scrubState st).pending_auth = st.pending_auth := rfl

theorem scrubState_ids (st : ServerState) :
    (scrubState st).sso_identities = st.sso_identities := rfl

theorem whoami_scrub (st : ServerState) (c : Claims) (session_id : String) (now : Nat) :
    (whoami (scrubState st) c session_id now).1 = (whoami st c session_id now).1 := by
  unfold whoami
  rw [track_scrub]
  cases hu : get_sso_user_id c with
  | none => simp [hu, scrubState_tokens, scrubState_ids]
  | some u =>
    simp only [hu, scrubState_tokens, scrubState_ids, is_auth_scrub_fst, is_auth_scrub_snd,
      alookup_scrubTokens]
    cases hA : (is_blackboard_authenticated
        (track_sso_identity st c session_id now).blackboard_tokens u now).1 with
    | false => simp [hA]
    | true =>
      cases halk : alookup (is_blackboard_authenticated
          (track_sso_identity st c session_id now).blackboard_tokens u now).2 u with
      | none => simp [hA, halk]
      | some d => simp [hA, halk, scrubCred]

theorem status_scrub (st : ServerState) (c : Claims) (session_id : String) (now : Nat) :
    (blackboard_status (scrubState st) c session_id now).1
      = (blackboard_status st c session_id now).1 := by
  unfold blackboard_status
  rw [track_scrub]
  cases hu : get_sso_user_id c with
  | none => simp [hu]
  | some u =>
    simp only [hu, scrubState_tokens, is_auth_scrub_fst, is_auth_scrub_snd,
      alookup_scrubTokens]
    cases hA : (is_blackboard_authenticated
        (track_sso_identity st c session_id now).blackboard_tokens u now).1 with
    | false => simp [hA]
    | true =>
      cases halk : alookup (is_blackboard_authenticated
          (track_sso_identity st c session_id now).blackboard_tokens u now).2 u with
      | none => simp [hA, halk]
      | some d => simp [hA, halk, scrubCred]

theorem login_scrub (cfg : Config) (st : ServerState) (c : Claims)
    (session_id newState : String) (now : Nat) :
    (blackboard_login cfg (scrubState st) c session_id newState now).1
      = (blackboard_login cfg st c session_id newState now).1 := by
  unfold blackboard_login
  rw [track_scrub]
  cases hu : get_sso_user_id c with
  | none => simp [hu]
  | some u =>
    simp only [hu, scrubState_tokens, scrubState_pending, is_auth_scrub_fst]
    cases hA : (is_blackboard_authenticated
        (track_sso_identity st c session_id now).blackboard_tokens u now).1 with
    | false => simp [hA]
    | true => simp [hA]

theorem logout_scrub (st : ServerState) (c : Claims) (session_id : String) (now : Nat) :
    (blackboard_logout (scrubState st) c session_id now).1
      = (blackboard_logout st c session_id now).1 := by
  unfold blackboard_logout
  rw [track_scrub]
  cases hu : get_sso_user_id c with
  | none => simp [hu]
  | some u =>
    simp only [hu, scrubState_tokens, alookup_scrubTokens]
    cases halk : alookup (track_sso_identity st c session_id now).blackboard_tokens u with
    | none => simp [halk]
    | some d => simp [halk]

theorem make_api_scrub_fst (l : List (String × Credential)) (u : String) (now : Nat)
    (resp : ApiResponse) :
    (make_blackboard_api_call (scrubTokens l) u now resp).1
      = (make_blackboard_api_call l u now resp).1 := by
  unfold make_blackboard_api_call
  simp only [get_blackboard_token_scrub_fst]
  cases h : (get_blackboard_token l u now).1 with
  | none => simp [h]
  | some t =>
    simp only [h]
    by_cases hs : 400 ≤ resp.status_code
    · simp [hs]
    · simp [hs]

theorem courses_scrub (st : ServerState) (c : Claims) (session_id : String)
    (now : Nat) (resp : ApiResponse) :
    (get_blackboard_courses (scrubState st) c session_id now resp).1
      = (get_blackboard_courses st c session_id now resp).1 := by
  unfold get_blackboard_courses
  rw [track_scrub]
  cases hu : get_sso_user_id c with
  | none => simp [hu]
  | some u =>
    simp only [hu, scrubState_tokens, make_api_scrub_fst]
    cases hr : (make_blackboard_api_call
        (track_sso_identity st c session_id now).blackboard_tokens u now resp).1 with
    | error e => cases e <;> simp [hr]
    | ok body => cases body <;> simp [hr]

theorem exchange_scrub_fst (st : ServerState) (code state : String)
    (resp : UpstreamResponse) (now : Nat) :
    (exchange_code (scrubState st) code state resp now).1
      = (exchange_code st code state resp now).1 := by
  unfold exchange_code
  simp only [scrubState_pending]
  cases h : alookup st.pending_auth state with
  | none => simp [h]
  | some p =>
    by_cases hage : 300 < now - p.created_at
    · simp [h, hage]
    · by_cases hs : resp.status_code ≠ 200
      · simp [h, hage, hs]
      · simp [h, hage, hs]

theorem get_token_absent (tokens : List (String × Credential)) (u : String) (now : Nat)
    (h : alookup tokens u = none) :
    get_blackboard_token tokens u now = (none, tokens) := by
  unfold get_blackboard_token
  rw [h]

theorem get_token_expired (tokens : List (String × Credential)) (u : String) (now : Nat)
    (cr : Credential) (h : alookup tokens u = some cr) (he : cr.expires_at ≤ now) :
    get_blackboard_token tokens u now = (none, aerase tokens u) := by
  unfold get_blackboard_token
  rw [h]
  simp [he]

theorem get_token_live (tokens : List (String × Credential)) (u : String) (now : Nat)
    (cr : Credential) (h : alookup tokens u = some cr) (he : ¬ cr.expires_at ≤ now) :
    get_blackboard_token tokens u now = (some cr.access_token, tokens) := by
  unfold get_blackboard_token
  rw [h]
  simp [he]

theorem blackboard_status_connected (st : ServerState) (c : Claims) (session_id : String)
    (now : Nat) (u : String) (cr : Credential)
    (hc : get_sso_user_id c = some u)
    (hlk : alookup st.blackboard_tokens u = some cr)
    (hexp : ¬ cr.expires_at ≤ now) :
    (blackboard_status st c session_id now).1
      = "✅ Connected to Blackboard (User ID: " ++ render_opt_id cr.blackboard_user_id
          ++ ")\n🔒 Access token secured" := by
  unfold blackboard_status
  rw [hc]
  simp [track_sso_identity, is_blackboard_authenticated, get_blackboard_token, hlk, hexp]

theorem blackboard_status_disconnected (st : ServerState) (c : Claims) (session_id : String)
    (now : Nat) (u : String)
    (hc : get_sso_user_id c = some u)
    (hnone : (get_blackboard_token st.blackboard_tokens u now).1 = none) :
    (blackboard_status st c session_id now).1
      = "❌ Not connected. Use `blackboard_login` to connect." := by
  unfold blackboard_status
  rw [hc]
  simp [track_sso_identity, is_blackboard_authenticated, hnone]

theorem exchange_code_of_absent (st : ServerState) (code state : String)
    (resp : UpstreamResponse) (now : Nat)
    (h : alookup st.pending_auth state = none) :
    exchange_code st code state resp now = (Except.error ExchangeError.invalidState, st) := by
  unfold exchange_code
  rw [h]

/-! ## Claim theorems -/

/-- Claim C1: a pending-authorization state token is single-use.  After any
`exchange_code` call presenting `state` — succeeding or failing, with any
upstream response and at any time — `state` is no longer in the pending
registry, and every subsequent `exchange_code` call presenting the same
`state` fails with the invalid-or-expired-state error. -/
theorem exchange_code_state_single_use (st : ServerState) (code₁ code₂ state : String)
    (resp₁ resp₂ : UpstreamResponse) (now₁ now₂ : Nat) :
    alookup (exchange_code st code₁ state resp₁ now₁).2.pending_auth state = none ∧
    (exchange_code (exchange_code st code₁ state resp₁ now₁).2 code₂ state resp₂ now₂).1
      = Except.error ExchangeError.invalidState := by
  have h1 : alookup (exchange_code st code₁ state resp₁ now₁).2.pending_auth state = none := by
    unfold exchange_code
    cases h : alookup st.pending_auth state with
    | none => simpa using h
    | some p =>
      by_cases hage : 300 < now₁ - p.created_at
      · simp [hage, alookup_aerase_self]
      · by_cases hs : resp₁.status_code ≠ 200
        · simp [hage, hs, alookup_aerase_self]
        · simp [hage, hs, alookup_aerase_self]
  refine ⟨h1, ?_⟩
  rw [exchange_code_of_absent _ _ _ _ _ h1]

/-- Claim C5: consumption of a pending state succeeds only when the
presented state exists and is at most 5 minutes (300 seconds) old, and a
pending authorization older than the TTL is rejected with the
expired-session error at consume time, with no sweep involved. -/
theorem consume_requires_fresh_state (st : ServerState) (code state : String)
    (resp : UpstreamResponse) (now : Nat) :
    ((∃ r, (exchange_code st code state resp now).1 = Except.ok r) →
      ∃ p, alookup st.pending_auth state = some p ∧ now - p.created_at ≤ 300) ∧
    (∀ p, alookup st.pending_auth state = some p → 300 < now - p.created_at →
      (exchange_code st code state resp now).1
        = Except.error ExchangeError.authSessionExpired) := by
  constructor
  · rintro ⟨r, hr⟩
    cases h : alookup st.pending_auth state with
    | none =>
      rw [exchange_code_of_absent _ _ _ _ _ h] at hr
      exact absurd hr (by simp)
    | some p =>
      refine ⟨p, rfl, ?_⟩
      by_cases hage : 300 < now - p.created_at
      · unfold exchange_code at hr
        rw [h] at hr
        simp [hage] at hr
      · omega
  · intro p hp hage
    unfold exchange_code
    rw [hp]
    simp [hage]

/-- Witness for C5 at a concrete input: a state created at time 0 and
presented at time 400 is rejected as expired. -/
theorem consume_requires_fresh_state_witness :
    (exchange_code ⟨[], [(("s1"), ⟨"u1", 0⟩)], []⟩ ("abc") ("s1")
        ⟨200, "", ⟨"tok", none, none, none⟩⟩ 400).1
      = Except.error ExchangeError.authSessionExpired := by
  exact (consume_requires_fresh_state ⟨[], [(("s1"), ⟨"u1", 0⟩)], []⟩ ("abc") ("s1")
    ⟨200, "", ⟨"tok", none, none, none⟩⟩ 400).2 ⟨"u1", 0⟩ (by rfl) (by decide)

/-- Claim C6: when the upstream exchange returns a non-2xx status, the call
fails with the upstream-exchange error carrying the upstream body, the
credential store is unchanged, and every credential retrievable before the
failed call is still retrievable afterwards. -/
theorem failed_exchange_preserves_credentials (st : ServerState) (code state : String)
    (resp : UpstreamResponse) (now : Nat) (p : PendingAuth)
    (hp : alookup st.pending_auth state = some p)
    (hage : now - p.created_at ≤ 300)
    (hstatus : resp.status_code < 200 ∨ 300 ≤ resp.status_code) :
    (exchange_code st code state resp now).1
      = Except.error (ExchangeError.tokenExchangeFailed resp.text) ∧
    (exchange_code st code state resp now).2.blackboard_tokens = st.blackboard_tokens ∧
    ∀ sso_user_id t tok,
      (get_blackboard_token st.blackboard_tokens sso_user_id t).1 = some tok →
      (get_blackboard_token (exchange_code st code state resp now).2.blackboard_tokens
          sso_user_id t).1 = some tok := by
  have hne : resp.status_code ≠ 200 := by omega
  have hage₂ : ¬ 300 < now - p.created_at := by omega
  have hmain : exchange_code st code state resp now
      = (Except.error (ExchangeError.tokenExchangeFailed resp.text),
          { st with pending_auth := aerase st.pending_auth state }) := by
    unfold exchange_code
    rw [hp]
    simp [hage₂, hne]
  rw [hmain]
  exact ⟨rfl, rfl, fun _ _ _ h => h⟩

/-- Witness for C6 at a concrete input: an HTTP 400 exchange leaves the
previously stored credential for `u1` in place and retrievable. -/
theorem failed_exchange_preserves_credentials_witness :
    (exchange_code ⟨[(("u1"), ⟨"oldtok", 100, none, none⟩)], [(("s1"), ⟨"u1", 0⟩)], []⟩
        ("abc") ("s1") ⟨400, "bad request", ⟨"", none, none, none⟩⟩ 10).1
      = Except.error (ExchangeError.tokenExchangeFailed ("bad request")) ∧
    (get_blackboard_token (exchange_code
        ⟨[(("u1"), ⟨"oldtok", 100, none, none⟩)], [(("s1"), ⟨"u1", 0⟩)], []⟩
        ("abc") ("s1") ⟨400, "bad request", ⟨"", none, none, none⟩⟩ 10).2.blackboard_tokens
        ("u1") 10).1 = some ("oldtok") := by
  have h := failed_exchange_preserves_credentials
    ⟨[(("u1"), ⟨"oldtok", 100, none, none⟩)], [(("s1"), ⟨"u1", 0⟩)], []⟩
    ("abc") ("s1") ⟨400, "bad request", ⟨"", none, none, none⟩⟩ 10 ⟨"u1", 0⟩
    (by rfl) (by decide) (by right; decide)
  exact ⟨h.1, h.2.2 ("u1") 10 ("oldtok") (by decide)⟩

/-- Counterexample to claim C2 as stated: the claim asserts every stored
credential is sealed by a cipher before being written, with the plaintext
only transient.  On a concrete successful exchange the value written to
the store for `u1` is exactly the plaintext access token returned by the
upstream exchange: the plaintext is at rest in the store, and no sealing
step exists in the code. -/
theorem exchange_code_stores_plaintext_cex :
    (alookup (exchange_code ⟨[], [(("s1"), ⟨"u1", 0⟩)], []⟩ ("abc") ("s1")
        ⟨200, "", ⟨"PLAINTEXT-SECRET", some 3600, some ("_999_1"), none⟩⟩ 10).2.blackboard_tokens
        ("u1")).map Credential.access_token = some ("PLAINTEXT-SECRET") := by decide

/-- Claim C2 (amended): every credential written by a successful
`complete_authorization` is stored in the in-memory map with the access
token verbatim, in plaintext — no cipher exists and no sealing is applied
before the write; the entry for the identity is overwritten. -/
theorem credential_stored_verbatim_plaintext (st : ServerState) (code state : String)
    (resp : UpstreamResponse) (now : Nat) (p : PendingAuth)
    (hp : alookup st.pending_auth state = some p)
    (hage : now - p.created_at ≤ 300)
    (hstatus : resp.status_code = 200) :
    alookup (exchange_code st code state resp now).2.blackboard_tokens p.sso_user_id
      = some ⟨resp.token_data.access_token, now + resp.token_data.expires_in.getD 3600,
          resp.token_data.user_id, resp.token_data.refresh_token⟩ := by
  have hage₂ : ¬ 300 < now - p.created_at := by omega
  unfold exchange_code
  rw [hp]
  simp [hage₂, hstatus, alookup_ainsert_self]

/-- Witness for the amended C2 at a concrete input. -/
theorem credential_stored_verbatim_plaintext_witness :
    alookup (exchange_code ⟨[], [(("s1"), ⟨"u1", 0⟩)], []⟩ ("abc") ("s1")
        ⟨200, "", ⟨"tok-abc", some 60, some ("_9_1"), none⟩⟩ 10).2.blackboard_tokens ("u1")
      = some ⟨"tok-abc", 70, some ("_9_1"), none⟩ := by
  exact credential_stored_verbatim_plaintext ⟨[], [(("s1"), ⟨"u1", 0⟩)], []⟩ ("abc") ("s1")
    ⟨200, "", ⟨"tok-abc", some 60, some ("_9_1"), none⟩⟩ 10 ⟨"u1", 0⟩ (by rfl) (by decide) (by rfl)

/-- Counterexample to claim C7 as stated: with an upstream response whose
`expires_in` is 0, `complete_authorization` succeeds, yet immediately
afterwards (same clock value) the status tool reports not connected and
the token is not retrievable, because the stored `expires_at` equals the
current time. -/
theorem nonpositive_expiry_disconnected_cex :
    (exchange_code ⟨[], [(("s1"), ⟨"u1", 0⟩)], []⟩ ("abc") ("s1")
        ⟨200, "", ⟨"tok", some 0, some ("_999_1"), none⟩⟩ 10).1
      = Except.ok ⟨"u1", some ("_999_1")⟩ ∧
    (blackboard_status (exchange_code ⟨[], [(("s1"), ⟨"u1", 0⟩)], []⟩ ("abc") ("s1")
        ⟨200, "", ⟨"tok", some 0, some ("_999_1"), none⟩⟩ 10).2
        ⟨some ("u1"), none, none, none, none⟩ ("sess") 10).1
      = "❌ Not connected. Use `blackboard_login` to connect." ∧
    (get_blackboard_token (exchange_code ⟨[], [(("s1"), ⟨"u1", 0⟩)], []⟩ ("abc") ("s1")
        ⟨200, "", ⟨"tok", some 0, some ("_999_1"), none⟩⟩ 10).2.blackboard_tokens ("u1") 10).1
      = none := by
  refine ⟨by rfl, by decide, by decide⟩

/-- Claim C7 (amended): when `complete_authorization` succeeds and the
upstream `expires_in` (defaulted to 3600 when absent) is positive, the
stored credential has the exchanged access token and
`expires_at = now + expires_in`, overwriting any prior entry; immediately
afterwards the status tool reports connected and the token lookup returns
the exchanged token. -/
theorem successful_exchange_stores_and_connects
    (st : ServerState) (code state session_id : String)
    (resp : UpstreamResponse) (now : Nat) (p : PendingAuth) (c : Claims)
    (hp : alookup st.pending_auth state = some p)
    (hage : now - p.created_at ≤ 300)
    (hstatus : resp.status_code = 200)
    (hpos : 0 < resp.token_data.expires_in.getD 3600)
    (hc : get_sso_user_id c = some p.sso_user_id) :
    (exchange_code st code state resp now).1
      = Except.ok ⟨p.sso_user_id, resp.token_data.user_id⟩ ∧
    alookup (exchange_code st code state resp now).2.blackboard_tokens p.sso_user_id
      = some ⟨resp.token_data.access_token, now + resp.token_data.expires_in.getD 3600,
          resp.token_data.user_id, resp.token_data.refresh_token⟩ ∧
    (get_blackboard_token (exchange_code st code state resp now).2.blackboard_tokens
        p.sso_user_id now).1 = some resp.token_data.access_token ∧
    (blackboard_status (exchange_code st code state resp now).2 c session_id now).1
      = "✅ Connected to Blackboard (User ID: " ++ render_opt_id resp.token_data.user_id
          ++ ")\n🔒 Access token secured" := by
  have hage₂ : ¬ 300 < now - p.created_at := by omega
  have hexp : ¬ (now + resp.token_data.expires_in.getD 3600 ≤ now) := by omega
  have hmain : exchange_code st code state resp now
      = (Except.ok ⟨p.sso_user_id, resp.token_data.user_id⟩,
          ⟨ainsert st.blackboard_tokens p.sso_user_id
              ⟨resp.token_data.access_token, now + resp.token_data.expires_in.getD 3600,
                resp.token_data.user_id, resp.token_data.refresh_token⟩,
            aerase st.pending_auth state, st.sso_identities⟩) := by
    unfold exchange_code
    rw [hp]
    simp [hage₂, hstatus]
  refine ⟨by rw [hmain], ?_, ?_, ?_⟩
  · rw [hmain]
    exact alookup_ainsert_self _ _ _
  · rw [hmain]
    unfold get_blackboard_token
    rw [alookup_ainsert_self]
    simp [hexp]
  · rw [hmain]
    exact blackboard_status_connected _ c session_id now p.sso_user_id
      ⟨resp.token_data.access_token, now + resp.token_data.expires_in.getD 3600,
        resp.token_data.user_id, resp.token_data.refresh_token⟩ hc
      (alookup_ainsert_self _ _ _) hexp

/-- Witness for the amended C7 at a concrete input. -/
theorem successful_exchange_stores_and_connects_witness :
    (exchange_code ⟨[], [(("s1"), ⟨"u1", 0⟩)], []⟩ ("abc") ("s1")
        ⟨200, "", ⟨"tok-xyz", some 3600, some ("_999_1"), none⟩⟩ 10).1
      = Except.ok ⟨"u1", some ("_999_1")⟩ ∧
    (get_blackboard_token (exchange_code ⟨[], [(("s1"), ⟨"u1", 0⟩)], []⟩ ("abc") ("s1")
        ⟨200, "", ⟨"tok-xyz", some 3600, some ("_999_1"), none⟩⟩ 10).2.blackboard_tokens
        ("u1") 10).1 = some ("tok-xyz") ∧
    (blackboard_status (exchange_code ⟨[], [(("s1"), ⟨"u1", 0⟩)], []⟩ ("abc") ("s1")
        ⟨200, "", ⟨"tok-xyz", some 3600, some ("_999_1"), none⟩⟩ 10).2
        ⟨some ("u1"), none, none, none, none⟩ ("sess") 10).1
      = "✅ Connected to Blackboard (User ID: _999_1)\n🔒 Access token secured" := by
  have h := successful_exchange_stores_and_connects
    ⟨[], [(("s1"), ⟨"u1", 0⟩)], []⟩ ("abc") ("s1") ("sess")
    ⟨200, "", ⟨"tok-xyz", some 3600, some ("_999_1"), none⟩⟩ 10 ⟨"u1", 0⟩
    ⟨some ("u1"), none, none, none, none⟩ (by rfl) (by decide) (by rfl) (by decide) (by rfl)
  exact ⟨h.1, h.2.2.1, h.2.2.2⟩

/-- Claim C4: the authenticated API-call path fails with the
authentication-required error exactly when the token store holds no entry
for the identity whose expiry is still in the future, and reading an
expired entry deletes it, so an expired credential is never retrievable. -/
theorem get_credential_absent_iff_no_live_entry
    (tokens : List (String × Credential)) (sso_user_id : String) (now : Nat)
    (resp : ApiResponse) :
    ((make_blackboard_api_call tokens sso_user_id now resp).1
        = Except.error ApiCallError.notAuthenticated
      ↔ ∀ cr, alookup tokens sso_user_id = some cr → cr.expires_at ≤ now) ∧
    (∀ cr, alookup tokens sso_user_id = some cr → cr.expires_at ≤ now →
      alookup (make_blackboard_api_call tokens sso_user_id now resp).2 sso_user_id
        = none) := by
  cases h : alookup tokens sso_user_id with
  | none =>
    constructor
    · constructor
      · intro _ cr hcr
        cases hcr
      · intro _
        unfold make_blackboard_api_call
        rw [get_token_absent tokens sso_user_id now h]
    · intro cr hcr
      cases hcr
  | some cr =>
    by_cases he : cr.expires_at ≤ now
    · constructor
      · constructor
        · intro _ cr₂ hcr₂
          cases hcr₂
          exact he
        · intro _
          unfold make_blackboard_api_call
          rw [get_token_expired tokens sso_user_id now cr h he]
      · intro cr₂ hcr₂ _
        unfold make_blackboard_api_call
        rw [get_token_expired tokens sso_user_id now cr h he]
        simpa using alookup_aerase_self tokens sso_user_id
    · constructor
      · constructor
        · intro hco
          unfold make_blackboard_api_call at hco
          rw [get_token_live tokens sso_user_id now cr h he] at hco
          by_cases hs : 400 ≤ resp.status_code
          · simp [hs] at hco
          · simp [hs] at hco
        · intro hall
          exact absurd (hall cr rfl) he
      · intro cr₂ hcr₂ he₂
        cases hcr₂
        exact absurd he₂ he

/-- Witness for C4 at concrete inputs: with no stored entry the call fails
with the authentication-required error, and reading an expired entry
deletes it. -/
theorem get_credential_absent_iff_no_live_entry_witness :
    (make_blackboard_api_call [] ("u1") 5 ⟨200, none⟩).1
      = Except.error ApiCallError.notAuthenticated ∧
    alookup (make_blackboard_api_call [(("u1"), ⟨"tok", 5, none, none⟩)] ("u1") 5
        ⟨200, none⟩).2 ("u1") = none := by
  constructor
  · exact (get_credential_absent_iff_no_live_entry [] ("u1") 5 ⟨200, none⟩).1.2
      (fun cr hcr => by cases hcr)
  · exact (get_credential_absent_iff_no_live_entry [(("u1"), ⟨"tok", 5, none, none⟩)]
      ("u1") 5 ⟨200, none⟩).2 ⟨"tok", 5, none, none⟩ (by rfl) (by decide)

/-- Claim C8: when the caller already holds a live (unexpired) credential,
`blackboard_login` answers with the already-connected message and creates
no new pending authorization: the pending registry is unchanged. -/
theorem login_when_live_credential_no_new_pending
    (cfg : Config) (st : ServerState) (c : Claims) (session_id newState : String)
    (now : Nat) (u tok : String)
    (hc : get_sso_user_id c = some u)
    (hlive : (get_blackboard_token st.blackboard_tokens u now).1 = some tok) :
    (blackboard_login cfg st c session_id newState now).1
      = "✅ You\x27re already connected to Blackboard!" ∧
    (blackboard_login cfg st c session_id newState now).2.pending_auth
      = st.pending_auth := by
  unfold blackboard_login
  rw [hc]
  simp [track_sso_identity, is_blackboard_authenticated, hlive]

/-- Witness for C8 at a concrete input. -/
theorem login_when_live_credential_no_new_pending_witness :
    (blackboard_login ⟨"https://bb", "key", "https://srv"⟩
        ⟨[(("u1"), ⟨"tok", 100, none, none⟩)], [(("olds"), ⟨"u2", 0⟩)], []⟩
        ⟨some ("u1"), none, none, none, none⟩ ("sess") ("news") 10).1
      = "✅ You\x27re already connected to Blackboard!" ∧
    (blackboard_login ⟨"https://bb", "key", "https://srv"⟩
        ⟨[(("u1"), ⟨"tok", 100, none, none⟩)], [(("olds"), ⟨"u2", 0⟩)], []⟩
        ⟨some ("u1"), none, none, none, none⟩ ("sess") ("news") 10).2.pending_auth
      = [(("olds"), ⟨"u2", 0⟩)] := by
  exact login_when_live_credential_no_new_pending ⟨"https://bb", "key", "https://srv"⟩
    ⟨[(("u1"), ⟨"tok", 100, none, none⟩)], [(("olds"), ⟨"u2", 0⟩)], []⟩
    ⟨some ("u1"), none, none, none, none⟩ ("sess") ("news") 10 ("u1") ("tok")
    (by rfl) (by decide)

theorem blackboard_logout_not_connected (st : ServerState) (c : Claims)
    (session_id : String) (now : Nat) (u : String)
    (hc : get_sso_user_id c = some u)
    (habs : alookup st.blackboard_tokens u = none) :
    (blackboard_logout st c session_id now).1
      = "ℹ️ You weren\x27t connected to Blackboard." ∧
    (blackboard_logout st c session_id now).2.blackboard_tokens
      = st.blackboard_tokens := by
  unfold blackboard_logout
  rw [hc]
  simp [track_sso_identity, habs]

/-- Claim C9: revoke (logout) is idempotent.  After one logout the identity
has no stored credential; a second logout leaves the token store exactly as
the first left it, answers with the informational not-connected message
rather than an error, and the status tool reports not connected after
either call. -/
theorem logout_idempotent (st : ServerState) (c : Claims) (session_id : String)
    (now : Nat) (u : String) (hc : get_sso_user_id c = some u) :
    alookup (blackboard_logout st c session_id now).2.blackboard_tokens u = none ∧
    alookup (blackboard_logout (blackboard_logout st c session_id now).2 c session_id
        now).2.blackboard_tokens u = none ∧
    (blackboard_logout (blackboard_logout st c session_id now).2 c session_id
        now).2.blackboard_tokens
      = (blackboard_logout st c session_id now).2.blackboard_tokens ∧
    (blackboard_logout (blackboard_logout st c session_id now).2 c session_id now).1
      = "ℹ️ You weren\x27t connected to Blackboard." ∧
    (blackboard_status (blackboard_logout st c session_id now).2 c session_id now).1
      = "❌ Not connected. Use `blackboard_login` to connect." ∧
    (blackboard_status (blackboard_logout (blackboard_logout st c session_id now).2 c
        session_id now).2 c session_id now).1
      = "❌ Not connected. Use `blackboard_login` to connect." := by
  have h1 : alookup (blackboard_logout st c session_id now).2.blackboard_tokens u
      = none := by
    unfold blackboard_logout
    rw [hc]
    by_cases hin : (alookup (track_sso_identity st c session_id now).blackboard_tokens
        u).isSome
    · simp [hin, alookup_aerase_self]
    · simp only [hin]
      simp only [Bool.false_eq_true, if_false]
      simpa [track_sso_identity] using Option.not_isSome_iff_eq_none.mp hin
  have h2 := blackboard_logout_not_connected (blackboard_logout st c session_id now).2
    c session_id now u hc h1
  refine ⟨h1, ?_, h2.2, h2.1, ?_, ?_⟩
  · rw [h2.2]
    exact h1
  · exact blackboard_status_disconnected _ c session_id now u hc
      (by rw [get_token_absent _ u now h1])
  · refine blackboard_status_disconnected _ c session_id now u hc ?_
    rw [get_token_absent _ u now (by rw [h2.2]; exact h1)]

/-- Witness for C9 at a concrete input. -/
theorem logout_idempotent_witness :
    (blackboard_logout (blackboard_logout
        ⟨[(("u1"), ⟨"tok", 100, none, none⟩)], [], []⟩
        ⟨some ("u1"), none, none, none, none⟩ ("sess") 10).2
        ⟨some ("u1"), none, none, none, none⟩ ("sess") 10).1
      = "ℹ️ You weren\x27t connected to Blackboard." ∧
    (blackboard_status (blackboard_logout
        ⟨[(("u1"), ⟨"tok", 100, none, none⟩)], [], []⟩
        ⟨some ("u1"), none, none, none, none⟩ ("sess") 10).2
        ⟨some ("u1"), none, none, none, none⟩ ("sess") 10).1
      = "❌ Not connected. Use `blackboard_login` to connect." := by
  have h := logout_idempotent ⟨[(("u1"), ⟨"tok", 100, none, none⟩)], [], []⟩
    ⟨some ("u1"), none, none, none, none⟩ ("sess") 10 ("u1") (by rfl)
  exact ⟨h.2.2.2.1, h.2.2.2.2.1⟩

/-- Claim C10: when the claims carry none of `sub`, `user_id`, `uid`, each
tool answers with the unable-to-identify error message and leaves both the
credential store and the pending-authorization registry unchanged; in
particular no entry keyed by the transient session id is created in
either. -/
theorem missing_identity_tools_reject_and_preserve
    (cfg : Config) (st : ServerState) (c : Claims) (session_id newState : String)
    (now : Nat) (resp : ApiResponse)
    (hsub : c.sub = none) (huser : c.user_id = none) (huid : c.uid = none) :
    (blackboard_login cfg st c session_id newState now).1
      = "❌ Unable to identify SSO user. Please try again." ∧
    (blackboard_login cfg st c session_id newState now).2.blackboard_tokens
      = st.blackboard_tokens ∧
    (blackboard_login cfg st c session_id newState now).2.pending_auth
      = st.pending_auth ∧
    (blackboard_status st c session_id now).1 = "❌ Unable to identify SSO user." ∧
    (blackboard_status st c session_id now).2.blackboard_tokens
      = st.blackboard_tokens ∧
    (blackboard_status st c session_id now).2.pending_auth = st.pending_auth ∧
    (blackboard_logout st c session_id now).1 = "❌ Unable to identify SSO user." ∧
    (blackboard_logout st c session_id now).2.blackboard_tokens
      = st.blackboard_tokens ∧
    (blackboard_logout st c session_id now).2.pending_auth = st.pending_auth ∧
    (get_blackboard_courses st c session_id now resp).1
      = "❌ Unable to identify SSO user." ∧
    (get_blackboard_courses st c session_id now resp).2.blackboard_tokens
      = st.blackboard_tokens ∧
    (get_blackboard_courses st c session_id now resp).2.pending_auth
      = st.pending_auth := by
  have hc : get_sso_user_id c = none := by
    simp [get_sso_user_id, pyStr, hsub, huser, huid]
  refine ⟨?_, ?_, ?_, ?_, ?_, ?_, ?_, ?_, ?_, ?_, ?_, ?_⟩ <;>
    simp [blackboard_login, blackboard_status, blackboard_logout,
      get_blackboard_courses, track_sso_identity, hc]

/-- Witness for C10 at a concrete input: empty claims against a populated
state. -/
theorem missing_identity_tools_reject_and_preserve_witness :
    (blackboard_login ⟨"https://bb", "key", "https://srv"⟩
        ⟨[(("u1"), ⟨"tok", 100, none, none⟩)], [(("s1"), ⟨"u1", 0⟩)], []⟩
        ⟨none, none, none, none, none⟩ ("sess") ("news") 10).1
      = "❌ Unable to identify SSO user. Please try again." ∧
    (blackboard_login ⟨"https://bb", "key", "https://srv"⟩
        ⟨[(("u1"), ⟨"tok", 100, none, none⟩)], [(("s1"), ⟨"u1", 0⟩)], []⟩
        ⟨none, none, none, none, none⟩ ("sess") ("news") 10).2.pending_auth
      = [(("s1"), ⟨"u1", 0⟩)] ∧
    (get_blackboard_courses ⟨[(("u1"), ⟨"tok", 100, none, none⟩)], [(("s1"), ⟨"u1", 0⟩)], []⟩
        ⟨none, none, none, none, none⟩ ("sess") 10 ⟨200, none⟩).1
      = "❌ Unable to identify SSO user." := by
  have h := missing_identity_tools_reject_and_preserve
    ⟨"https://bb", "key", "https://srv"⟩
    ⟨[(("u1"), ⟨"tok", 100, none, none⟩)], [(("s1"), ⟨"u1", 0⟩)], []⟩
    ⟨none, none, none, none, none⟩ ("sess") ("news") 10 ⟨200, none⟩
    (by rfl) (by rfl) (by rfl)
  exact ⟨h.1, h.2.2.1, h.2.2.2.2.2.2.2.2.2.1⟩

set_option maxRecDepth 8192 in
/-- Counterexample to claim C3 as stated: the `debug_identity` tool of
`src/blackboard_mcp.py` embeds the first 8 characters of the plaintext
access token in its returned string, so for a token of at most 8
characters (here `secret`) the returned tool output contains the stored
plaintext access token in full. -/
theorem debug_identity_leaks_token_cex :
    strContains (debug_identity ⟨"secret", [(("sub"), "student-1")]⟩
      (some ("sess-1234567890"))) ("secret") = true := by decide

/-- Claim C3 (amended): the tool surfaces of `src/server.py` — whoami,
status, login, logout, the courses tool, and the value returned by the
code exchange — are independent of the stored plaintext access-token
values: replacing every stored access token by the empty string leaves
every returned string unchanged, so these outputs do not read the
token.  The exception forced by the counterexample: `debug_identity` in
`src/blackboard_mcp.py` returns the first 8 characters of the plaintext
token (and `BlackboardTokenVerifier.verify_token` in `src/auth.py` logs a
first-12/last-4 preview), so a token of length at most 8 is returned in
full by that debug tool. -/
theorem tool_surface_token_noninterference (cfg : Config) (st : ServerState)
    (c : Claims) (session_id newState code state : String) (resp : UpstreamResponse)
    (apiResp : ApiResponse) (now : Nat) :
    (whoami (scrubState st) c session_id now).1 = (whoami st c session_id now).1 ∧
    (blackboard_status (scrubState st) c session_id now).1
      = (blackboard_status st c session_id now).1 ∧
    (blackboard_login cfg (scrubState st) c session_id newState now).1
      = (blackboard_login cfg st c session_id newState now).1 ∧
    (blackboard_logout (scrubState st) c session_id now).1
      = (blackboard_logout st c session_id now).1 ∧
    (get_blackboard_courses (scrubState st) c session_id now apiResp).1
      = (get_blackboard_courses st c session_id now apiResp).1 ∧
    (exchange_code (scrubState st) code state resp now).1
      = (exchange_code st code state resp now).1 :=
  ⟨whoami_scrub st c session_id now,
   status_scrub st c session_id now,
   login_scrub cfg st c session_id newState now,
   logout_scrub st c session_id now,
   courses_scrub st c session_id now apiResp,
   exchange_scrub_fst st code state resp now⟩

end BlackboardAuth
